import Mathlib

/-
Shallow embedding of src/main.py (the "AI Inbox Agent" FastAPI relay).

The program has two request handlers, analyze_message and rewrite_reply.
Each builds a chat-completion request, sends it to an external completion
service, parses the returned text with json.loads, reads fields with
dict.get defaults, and returns a pydantic response model; every exception
inside the handler body is caught and turned into HTTP 500 with a fixed
detail string.  Module initialization reads OPENAI_API_KEY from the
environment and raises if it is falsy (missing or empty).

The external call together with json.loads of the returned content is
modelled as an oracle of type CompletionRequest → Except String Json:
an error value stands for any exception raised while calling the service
or parsing its output (network failure, non-JSON text, None content),
carrying the exception text.
-/

namespace InboxAgent

/-- JSON values as produced by Python json.loads.  Object fields model the
resulting dict (json.loads keeps one entry per key), arrays become lists,
and numbers are collapsed to integers: no claim depends on numeric values,
only on a number not being a string. -/
inductive Json where
  | null
  | bool (b : Bool)
  | num (n : Int)
  | str (s : String)
  | arr (elems : List Json)
  | obj (fields : List (String × Json))

/-- Lookup of a key in a parsed JSON object, modelling Python dict lookup
on the dict produced by json.loads. -/
def lookupField (fields : List (String × Json)) (key : String) : Option Json :=
  match fields with
  | [] => none
  | (k, v) :: rest => if k = key then some v else lookupField rest key

/-- Models Python dict.get(key, default) on a parsed JSON object. -/
def dictGetD (fields : List (String × Json)) (key : String) (default : Json) : Json :=
  (lookupField fields key).getD default

/-- Models isinstance(x, list) on a json.loads value: true exactly for
JSON arrays. -/
def Json.isArr : Json → Bool
  | .arr _ => true
  | _ => false

/-- Models pydantic v2 validation of a `str` field: only a string value is
accepted; numbers, booleans, null, arrays and objects are rejected. -/
def asStr : Json → Option String
  | .str s => some s
  | _ => none

/-- Validation of the elements of a JSON array against `List[str]`:
succeeds iff every element is a string. -/
def strList : List Json → Option (List String)
  | [] => some []
  | j :: rest =>
    match asStr j, strList rest with
    | some s, some ss => some (s :: ss)
    | _, _ => none

/-- Models pydantic v2 validation of a `List[str]` field: the value must be
a JSON array whose elements are all strings. -/
def asStrList : Json → Option (List String)
  | .arr elems => strList elems
  | _ => none

/-- Escape of one character inside a JSON string literal, as done by
Python json.dumps for the characters that occur in this development. -/
def escapeJsonChar (c : Char) : String :=
  if c = '"' then "\\\""
  else if c = '\\' then "\\\\"
  else if c = '\n' then "\\n"
  else if c = '\t' then "\\t"
  else if c = '\r' then "\\r"
  else String.singleton c

/-- Serialization of a string as a JSON string literal (Python json.dumps). -/
def dumpString (s : String) : String :=
  "\"" ++ String.join (s.data.map escapeJsonChar) ++ "\""

mutual

/-- Models Python json.dumps with its default separators: item separator
comma-space and key separator colon-space. -/
def Json.dumps : Json → String
  | .null => "null"
  | .bool b => if b then "true" else "false"
  | .num n => toString n
  | .str s => dumpString s
  | .arr elems => "[" ++ Json.dumpsList elems ++ "]"
  | .obj fields => "\x7b" ++ Json.dumpsFields fields ++ "\x7d"

/-- Serialization of the element list of a JSON array. -/
def Json.dumpsList : List Json → String
  | [] => ""
  | [j] => Json.dumps j
  | j :: rest => Json.dumps j ++ ", " ++ Json.dumpsList rest

/-- Serialization of the field list of a JSON object. -/
def Json.dumpsFields : List (String × Json) → String
  | [] => ""
  | [(k, v)] => dumpString k ++ ": " ++ Json.dumps v
  | (k, v) :: rest => dumpString k ++ ": " ++ Json.dumps v ++ ", " ++ Json.dumpsFields rest

end

/-- Request body of POST /analyze_message (pydantic model MessageRequest,
src/main.py lines 38-39). -/
structure MessageRequest where
  message : String

/-- Response model of POST /analyze_message (pydantic model
MessageAnalysisResponse, src/main.py lines 42-46). -/
structure MessageAnalysisResponse where
  classification : String
  summary : String
  tasks : List String
  suggested_reply : String

/-- Request body of POST /rewrite_reply (pydantic model RewriteRequest,
src/main.py lines 49-52). -/
structure RewriteRequest where
  original_message : String
  base_reply : String
  style : String

/-- Response model of POST /rewrite_reply (pydantic model RewriteResponse,
src/main.py lines 55-56). -/
structure RewriteResponse where
  rewritten_reply : String

/-- One chat message of the outbound completion request. -/
structure ChatMessage where
  role : String
  content : String

/-- The outbound request given to client.chat.completions.create: model
name, response_format type, and the system/user message pair. -/
structure CompletionRequest where
  model : String
  response_format : String
  messages : List ChatMessage

/-- Result of a handler as seen by the caller: either an HTTP success with
the response-model body, or an HTTPException with status and detail. -/
inductive EndpointResult (α : Type) where
  | success (body : α)
  | httpError (status : Nat) (detail : String)

/-- The ANALYSIS_SYSTEM_PROMPT string of src/main.py lines 61-114. -/
def ANALYSIS_SYSTEM_PROMPT : String :=
  "\nYou are an AI inbox copilot for a busy professional.\n\nYour job is to read ONE incoming message (email, Slack, etc.) and return:\n- classification: exactly ONE of these:\n    - \"Urgent\"\n    - \"Request\"\n    - \"Follow-Up\"\n    - \"Reminder\"\n    - \"Informational\"\n- summary: 1–2 sentence summary\n- tasks: a list of concrete action items (can be empty)\n- suggested_reply: a reply the user could send\n\nCLASSIFICATION RULES (VERY IMPORTANT):\n\n1. Urgent\n   - Only if the message is truly time-critical (needs action within a few hours),\n     OR explicitly says ASAP, \"right away\", \"immediately\", \"today if possible\",\n     OR it clearly blocks important work.\n   - Deadlines like \"by tomorrow\", \"before tomorrow's stand-up\", \"later this week\"\n     are NOT urgent by default.\n\n2. Request\n   - The sender is asking the user to do something:\n     review, update, fix, send, approve, create, schedule, complete, etc.\n   - Includes tasks with deadlines (today, tomorrow, this week) that are not\n     explicitly critical or blocking.\n   - Example: \"Can you review the new API docs before tomorrow’s stand-up?\"\n     => classification should be \"Request\", not \"Urgent\".\n\n3. Follow-Up\n   - The sender is checking on a previous message or work.\n   - Look for phrases like \"just checking in\", \"any update\", \"following up\",\n     \"wanted to circle back\".\n\n4. Reminder\n   - The sender is reminding the user about something upcoming or overdue.\n   - Soft nudges, not true fire-drills.\n\n5. Informational\n   - Primarily FYI or status updates.\n   - No clear action required from the user.\n\nAlways choose EXACTLY ONE category. Do not invent others.\n\nReturn a JSON object with this exact structure:\n\x7b\n  \"classification\": \"Urgent | Request | Follow-Up | Reminder | Informational\",\n  \"summary\": \"short summary here\",\n  \"tasks\": [\"task 1\", \"task 2\"],\n  \"suggested_reply\": \"reply text here\"\n\x7d\n"

/-- The REWRITE_SYSTEM_PROMPT string of src/main.py lines 116-144. -/
def REWRITE_SYSTEM_PROMPT : String :=
  "\nYou rewrite email/Slack replies into different styles.\n\nYou will receive:\n- original_message: the message the user received\n- base_reply: a reasonable reply the user could send\n- style: one of \"polished\", \"short\", \"friendly\"\n\nYour job:\n- Preserve the meaning of the base_reply.\n- Adjust tone and length based on style:\n\n  - polished:\n      professional, clear, confident, complete sentences.\n      Appropriate for executives or clients.\n\n  - short:\n      very concise, direct, minimal words.\n      No fluff, but still polite.\n\n  - friendly:\n      warm, approachable, collaborative tone.\n      Still professional, no slang.\n\nReturn ONLY a JSON object:\n\x7b\n  \"rewritten_reply\": \"...\"\n\x7d\n"

/-- The completion request built by analyze_message (src/main.py lines
155-162): fixed model and JSON-object response format, the analysis system
prompt, and the raw request message as the user turn. -/
def analyzeCompletionRequest (request : MessageRequest) : CompletionRequest :=
  { model := "gpt-4.1-mini"
  , response_format := "json_object"
  , messages :=
      [ { role := "system", content := ANALYSIS_SYSTEM_PROMPT }
      , { role := "user", content := request.message } ] }

/-- The payload dict serialized into the user turn of rewrite_reply
(src/main.py lines 193-197). -/
def rewritePayload (request : RewriteRequest) : Json :=
  .obj [ ("original_message", .str request.original_message)
       , ("base_reply", .str request.base_reply)
       , ("style", .str request.style) ]

/-- The completion request built by rewrite_reply (src/main.py lines
199-206): fixed model and JSON-object response format, the rewrite system
prompt, and json.dumps of the payload as the user turn. -/
def rewriteCompletionRequest (request : RewriteRequest) : CompletionRequest :=
  { model := "gpt-4.1-mini"
  , response_format := "json_object"
  , messages :=
      [ { role := "system", content := REWRITE_SYSTEM_PROMPT }
      , { role := "user", content := Json.dumps (rewritePayload request) } ] }

/-- Normalization stage of analyze_message (src/main.py lines 167-180):
dict.get with defaults for the four fields, the isinstance(tasks, list)
coercion, then pydantic validation of MessageAnalysisResponse.  Returns
none when any step raises: data is not a dict (AttributeError on .get) or
a field value fails pydantic validation. -/
def analyzeNormalize (data : Json) : Option MessageAnalysisResponse :=
  match data with
  | .obj fields =>
    let classification := dictGetD fields "classification" (Json.str "Informational")
    let summary := dictGetD fields "summary" (Json.str "")
    let tasks0 := dictGetD fields "tasks" (Json.arr [])
    let suggested_reply := dictGetD fields "suggested_reply" (Json.str "")
    let tasks := if tasks0.isArr then tasks0 else Json.arr []
    match asStr classification, asStr summary, asStrList tasks, asStr suggested_reply with
    | some c, some s, some ts, some sr =>
        some { classification := c, summary := s, tasks := ts, suggested_reply := sr }
    | _, _, _, _ => none
  | _ => none

/-- Handler of POST /analyze_message (src/main.py lines 149-184).  The
oracle complete stands for the completion call followed by json.loads of
the returned content; any exception anywhere in the try body is caught and
mapped to HTTPException(500, "Error analyzing message"). -/
def analyze_message (complete : CompletionRequest → Except String Json)
    (request : MessageRequest) : EndpointResult MessageAnalysisResponse :=
  match complete (analyzeCompletionRequest request) with
  | .error _ => .httpError 500 "Error analyzing message"
  | .ok data =>
    match analyzeNormalize data with
    | some r => .success r
    | none => .httpError 500 "Error analyzing message"

/-- Normalization stage of rewrite_reply (src/main.py lines 208-212):
data.get("rewritten_reply", request.base_reply) followed by pydantic
validation of RewriteResponse.  Returns none when data is not a dict or
the value fails string validation. -/
def rewriteNormalize (request : RewriteRequest) (data : Json) : Option RewriteResponse :=
  match data with
  | .obj fields =>
    let rewritten := dictGetD fields "rewritten_reply" (Json.str request.base_reply)
    match asStr rewritten with
    | some s => some { rewritten_reply := s }
    | none => none
  | _ => none

/-- Handler of POST /rewrite_reply (src/main.py lines 187-216); any
exception in the try body is caught and mapped to
HTTPException(500, "Error rewriting reply"). -/
def rewrite_reply (complete : CompletionRequest → Except String Json)
    (request : RewriteRequest) : EndpointResult RewriteResponse :=
  match complete (rewriteCompletionRequest request) with
  | .error _ => .httpError 500 "Error rewriting reply"
  | .ok data =>
    match rewriteNormalize request data with
    | some r => .success r
    | none => .httpError 500 "Error rewriting reply"

/-- A process environment, as read by os.getenv after load_dotenv. -/
def Env : Type := String → Option String

/-- Value of os.getenv("OPENAI_API_KEY") (src/main.py line 15). -/
def OPENAI_API_KEY (env : Env) : Option String := env "OPENAI_API_KEY"

/-- The shared OpenAI client handle created at module initialization. -/
structure OpenAIClient where
  api_key : String

/-- Module initialization of src/main.py lines 15-19: read the credential,
raise RuntimeError when it is falsy (Python: both a missing variable and
the empty string are falsy), otherwise construct the shared client. -/
def startupInit (env : Env) : Except String OpenAIClient :=
  match OPENAI_API_KEY env with
  | none => .error "OPENAI_API_KEY is not set in .env"
  | some key =>
    if key = "" then .error "OPENAI_API_KEY is not set in .env"
    else .ok { api_key := key }

/-- Validation of a list of string literals succeeds and returns them. -/
theorem strList_map_str (ts : List String) : strList (ts.map Json.str) = some ts := by
  induction ts with
  | nil => rfl
  | cons t rest ih => simp [strList, asStr, ih]

/-- Validation of an element list fails when some element is not a string. -/
theorem strList_none_of_mem (js : List Json) (j : Json) (hj : j ∈ js)
    (h : asStr j = none) : strList js = none := by
  induction js with
  | nil => cases hj
  | cons x xs ih =>
      cases hj with
      | head => simp [strList, h]
      | tail _ hmem =>
          cases hx : asStr x <;> simp [strList, hx, ih hmem]

/-- Characterization of the analyze_message normalization on a JSON object:
it succeeds exactly when all four values (after defaulting and the tasks
list coercion) pass pydantic validation, and then the output fields are
those values. -/
theorem analyzeNormalize_obj (fields : List (String × Json)) (r : MessageAnalysisResponse) :
    analyzeNormalize (Json.obj fields) = some r ↔
      asStr (dictGetD fields "classification" (Json.str "Informational")) = some r.classification ∧
      asStr (dictGetD fields "summary" (Json.str "")) = some r.summary ∧
      asStrList (if (dictGetD fields "tasks" (Json.arr [])).isArr
                 then dictGetD fields "tasks" (Json.arr []) else Json.arr []) = some r.tasks ∧
      asStr (dictGetD fields "suggested_reply" (Json.str "")) = some r.suggested_reply := by
  obtain ⟨rc, rs, rt, rr⟩ := r
  unfold analyzeNormalize
  cases hc : asStr (dictGetD fields "classification" (Json.str "Informational")) <;>
  cases hs : asStr (dictGetD fields "summary" (Json.str "")) <;>
  cases ht : asStrList (if (dictGetD fields "tasks" (Json.arr [])).isArr
                        then dictGetD fields "tasks" (Json.arr []) else Json.arr []) <;>
  cases hr : asStr (dictGetD fields "suggested_reply" (Json.str "")) <;>
  simp [hc, hs, ht, hr]

/-- Characterization of the rewrite_reply normalization on a JSON object. -/
theorem rewriteNormalize_obj (request : RewriteRequest) (fields : List (String × Json))
    (r : RewriteResponse) :
    rewriteNormalize request (Json.obj fields) = some r ↔
      asStr (dictGetD fields "rewritten_reply" (Json.str request.base_reply))
        = some r.rewritten_reply := by
  obtain ⟨rw⟩ := r
  unfold rewriteNormalize
  cases h : asStr (dictGetD fields "rewritten_reply" (Json.str request.base_reply)) <;>
  simp [h]

/-- A successful normalization yields a successful endpoint response. -/
theorem analyze_message_ok (data : Json) (req : MessageRequest) (r : MessageAnalysisResponse)
    (h : analyzeNormalize data = some r) :
    analyze_message (fun _ => Except.ok data) req = .success r := by
  simp [analyze_message, h]

/-- A failed normalization yields the generic 500 error. -/
theorem analyze_message_err (data : Json) (req : MessageRequest)
    (h : analyzeNormalize data = none) :
    analyze_message (fun _ => Except.ok data) req
      = .httpError 500 "Error analyzing message" := by
  simp [analyze_message, h]

/-- A successful endpoint response comes from a successful normalization. -/
theorem analyze_message_success (data : Json) (req : MessageRequest)
    (r : MessageAnalysisResponse)
    (h : analyze_message (fun _ => Except.ok data) req = .success r) :
    analyzeNormalize data = some r := by
  cases hn : analyzeNormalize data with
  | none => rw [analyze_message_err data req hn] at h; exact absurd h (by simp)
  | some a =>
      rw [analyze_message_ok data req a hn] at h
      injection h with h2
      rw [← h2]

/-- A successful rewrite normalization yields a successful response. -/
theorem rewrite_reply_ok (data : Json) (req : RewriteRequest) (r : RewriteResponse)
    (h : rewriteNormalize req data = some r) :
    rewrite_reply (fun _ => Except.ok data) req = .success r := by
  simp [rewrite_reply, h]

/-- A failed rewrite normalization yields the generic 500 error. -/
theorem rewrite_reply_err (data : Json) (req : RewriteRequest)
    (h : rewriteNormalize req data = none) :
    rewrite_reply (fun _ => Except.ok data) req
      = .httpError 500 "Error rewriting reply" := by
  simp [rewrite_reply, h]

/-- A successful rewrite response comes from a successful normalization. -/
theorem rewrite_reply_success (data : Json) (req : RewriteRequest) (r : RewriteResponse)
    (h : rewrite_reply (fun _ => Except.ok data) req = .success r) :
    rewriteNormalize req data = some r := by
  cases hn : rewriteNormalize req data with
  | none => rw [rewrite_reply_err data req hn] at h; exact absurd h (by simp)
  | some a =>
      rw [rewrite_reply_ok data req a hn] at h
      injection h with h2
      rw [← h2]

/-- Normalization fails when classification is present but not a string. -/
theorem analyzeNormalize_none_classification (fields : List (String × Json)) (v : Json)
    (hl : lookupField fields "classification" = some v) (hv : asStr v = none) :
    analyzeNormalize (Json.obj fields) = none := by
  cases hn : analyzeNormalize (Json.obj fields) with
  | none => rfl
  | some r =>
      exfalso
      obtain ⟨h1, -, -, -⟩ := (analyzeNormalize_obj fields r).mp hn
      simp only [dictGetD, hl, Option.getD_some] at h1
      rw [hv] at h1
      exact absurd h1 (by simp)

/-- Normalization fails when summary is present but not a string. -/
theorem analyzeNormalize_none_summary (fields : List (String × Json)) (v : Json)
    (hl : lookupField fields "summary" = some v) (hv : asStr v = none) :
    analyzeNormalize (Json.obj fields) = none := by
  cases hn : analyzeNormalize (Json.obj fields) with
  | none => rfl
  | some r =>
      exfalso
      obtain ⟨-, h2, -, -⟩ := (analyzeNormalize_obj fields r).mp hn
      simp only [dictGetD, hl, Option.getD_some] at h2
      rw [hv] at h2
      exact absurd h2 (by simp)

/-- Normalization fails when suggested_reply is present but not a string. -/
theorem analyzeNormalize_none_suggested (fields : List (String × Json)) (v : Json)
    (hl : lookupField fields "suggested_reply" = some v) (hv : asStr v = none) :
    analyzeNormalize (Json.obj fields) = none := by
  cases hn : analyzeNormalize (Json.obj fields) with
  | none => rfl
  | some r =>
      exfalso
      obtain ⟨-, -, -, h4⟩ := (analyzeNormalize_obj fields r).mp hn
      simp only [dictGetD, hl, Option.getD_some] at h4
      rw [hv] at h4
      exact absurd h4 (by simp)

/-- Normalization fails when tasks is a list with a non-string element. -/
theorem analyzeNormalize_none_tasks_elem (fields : List (String × Json)) (xs : List Json)
    (j : Json) (hl : lookupField fields "tasks" = some (Json.arr xs)) (hj : j ∈ xs)
    (hv : asStr j = none) :
    analyzeNormalize (Json.obj fields) = none := by
  cases hn : analyzeNormalize (Json.obj fields) with
  | none => rfl
  | some r =>
      exfalso
      obtain ⟨-, -, h3, -⟩ := (analyzeNormalize_obj fields r).mp hn
      simp only [dictGetD, hl, Option.getD_some, Json.isArr, if_true, asStrList] at h3
      rw [strList_none_of_mem xs j hj hv] at h3
      exact absurd h3 (by simp)

/-- Rewrite normalization fails when rewritten_reply is present but not a
string. -/
theorem rewriteNormalize_none_bad (req : RewriteRequest) (fields : List (String × Json))
    (v : Json) (hl : lookupField fields "rewritten_reply" = some v) (hv : asStr v = none) :
    rewriteNormalize req (Json.obj fields) = none := by
  cases hn : rewriteNormalize req (Json.obj fields) with
  | none => rfl
  | some r =>
      exfalso
      have h1 := (rewriteNormalize_obj req fields r).mp hn
      simp only [dictGetD, hl, Option.getD_some] at h1
      rw [hv] at h1
      exact absurd h1 (by simp)

/-- C1: for every well-formed upstream JSON response, each field missing
from it is replaced in the handler's success output by exactly its
documented default: in analyze_message, classification becomes
"Informational", summary becomes "", tasks becomes the empty list,
suggested_reply becomes ""; in rewrite_reply, rewritten_reply becomes the
request's base_reply verbatim. -/
theorem c1_missing_fields_get_defaults :
    (∀ (req : MessageRequest) (fields : List (String × Json)) (r : MessageAnalysisResponse),
        analyze_message (fun _ => Except.ok (Json.obj fields)) req = .success r →
        (lookupField fields "classification" = none → r.classification = "Informational") ∧
        (lookupField fields "summary" = none → r.summary = "") ∧
        (lookupField fields "tasks" = none → r.tasks = []) ∧
        (lookupField fields "suggested_reply" = none → r.suggested_reply = "")) ∧
    (∀ (req : RewriteRequest) (fields : List (String × Json)) (r : RewriteResponse),
        rewrite_reply (fun _ => Except.ok (Json.obj fields)) req = .success r →
        lookupField fields "rewritten_reply" = none → r.rewritten_reply = req.base_reply) := by
  constructor
  · intro req fields r hsucc
    obtain ⟨h1, h2, h3, h4⟩ := (analyzeNormalize_obj fields r).mp
      (analyze_message_success _ _ _ hsucc)
    refine ⟨?_, ?_, ?_, ?_⟩
    · intro hmiss
      simp only [dictGetD, hmiss, Option.getD_none, asStr, Option.some.injEq] at h1
      exact h1.symm
    · intro hmiss
      simp only [dictGetD, hmiss, Option.getD_none, asStr, Option.some.injEq] at h2
      exact h2.symm
    · intro hmiss
      simp only [dictGetD, hmiss, Option.getD_none, Json.isArr, if_true, asStrList,
        strList, Option.some.injEq] at h3
      exact h3.symm
    · intro hmiss
      simp only [dictGetD, hmiss, Option.getD_none, asStr, Option.some.injEq] at h4
      exact h4.symm
  · intro req fields r hsucc hmiss
    have h1 := (rewriteNormalize_obj req fields r).mp (rewrite_reply_success _ _ _ hsucc)
    simp only [dictGetD, hmiss, Option.getD_none, asStr, Option.some.injEq] at h1
    exact h1.symm

/-- Witness for C1: with an empty upstream object, analyze_message returns
all four defaults and rewrite_reply echoes base_reply. -/
theorem c1_missing_fields_get_defaults_witness :
    analyze_message (fun _ => Except.ok (Json.obj [])) ⟨"hi"⟩
      = EndpointResult.success ⟨"Informational", "", [], ""⟩ ∧
    (MessageAnalysisResponse.mk "Informational" "" [] "").classification = "Informational" ∧
    (MessageAnalysisResponse.mk "Informational" "" [] "").tasks = [] ∧
    rewrite_reply (fun _ => Except.ok (Json.obj [])) ⟨"om", "base", "short"⟩
      = EndpointResult.success ⟨"base"⟩ ∧
    (RewriteResponse.mk "base").rewritten_reply = "base" := by
  refine ⟨rfl, ?_, ?_, rfl, ?_⟩
  · exact (c1_missing_fields_get_defaults.1 ⟨"hi"⟩ []
      ⟨"Informational", "", [], ""⟩ rfl).1 rfl
  · exact (c1_missing_fields_get_defaults.1 ⟨"hi"⟩ []
      ⟨"Informational", "", [], ""⟩ rfl).2.2.1 rfl
  · exact c1_missing_fields_get_defaults.2 ⟨"om", "base", "short"⟩ [] ⟨"base"⟩ rfl rfl

/-- C2: when all fields the handler reads are present with string-shaped
values (tasks a list of strings), the success output carries the upstream
values verbatim, with no transformation. -/
theorem c2_present_fields_passthrough :
    (∀ (req : MessageRequest) (fields : List (String × Json))
        (c s sr : String) (ts : List String),
        lookupField fields "classification" = some (Json.str c) →
        lookupField fields "summary" = some (Json.str s) →
        lookupField fields "tasks" = some (Json.arr (ts.map Json.str)) →
        lookupField fields "suggested_reply" = some (Json.str sr) →
        analyze_message (fun _ => Except.ok (Json.obj fields)) req
          = .success ⟨c, s, ts, sr⟩) ∧
    (∀ (req : RewriteRequest) (fields : List (String × Json)) (w : String),
        lookupField fields "rewritten_reply" = some (Json.str w) →
        rewrite_reply (fun _ => Except.ok (Json.obj fields)) req = .success ⟨w⟩) := by
  constructor
  · intro req fields c s sr ts h1 h2 h3 h4
    apply analyze_message_ok
    rw [analyzeNormalize_obj]
    refine ⟨?_, ?_, ?_, ?_⟩ <;>
      simp [dictGetD, h1, h2, h3, h4, asStr, asStrList, Json.isArr, strList_map_str]
  · intro req fields w h
    apply rewrite_reply_ok
    rw [rewriteNormalize_obj]
    simp [dictGetD, h, asStr]

/-- Witness for C2: a fully populated upstream object is passed through
verbatim by both handlers. -/
theorem c2_present_fields_passthrough_witness :
    lookupField [("classification", Json.str "Urgent"), ("summary", Json.str "s"),
        ("tasks", Json.arr [Json.str "t1"]), ("suggested_reply", Json.str "ok")]
      "classification" = some (Json.str "Urgent") ∧
    analyze_message (fun _ => Except.ok (Json.obj
        [("classification", Json.str "Urgent"), ("summary", Json.str "s"),
         ("tasks", Json.arr [Json.str "t1"]), ("suggested_reply", Json.str "ok")])) ⟨"m"⟩
      = EndpointResult.success ⟨"Urgent", "s", ["t1"], "ok"⟩ ∧
    rewrite_reply (fun _ => Except.ok (Json.obj [("rewritten_reply", Json.str "done")]))
        ⟨"om", "base", "short"⟩
      = EndpointResult.success ⟨"done"⟩ := by
  refine ⟨rfl, ?_, ?_⟩
  · exact c2_present_fields_passthrough.1 ⟨"m"⟩ _ "Urgent" "s" "ok" ["t1"]
      rfl rfl rfl rfl
  · exact c2_present_fields_passthrough.2 ⟨"om", "base", "short"⟩ _ "done" rfl

/-- C3: when the tasks field is present but is not a JSON array, the
normalized success output of analyze_message has tasks equal to the empty
list. -/
theorem c3_tasks_nonlist_becomes_empty :
    ∀ (req : MessageRequest) (fields : List (String × Json)) (t : Json)
      (r : MessageAnalysisResponse),
      lookupField fields "tasks" = some t →
      t.isArr = false →
      analyze_message (fun _ => Except.ok (Json.obj fields)) req = .success r →
      r.tasks = [] := by
  intro req fields t r hl ha hsucc
  obtain ⟨-, -, h3, -⟩ := (analyzeNormalize_obj fields r).mp
    (analyze_message_success _ _ _ hsucc)
  simp only [dictGetD, hl, Option.getD_some, ha, if_false, Bool.false_eq_true,
    asStrList, strList, Option.some.injEq] at h3
  exact h3.symm

/-- Witness for C3: a string-valued tasks field degrades to the empty
list in a successful response. -/
theorem c3_tasks_nonlist_becomes_empty_witness :
    lookupField [("tasks", Json.str "do the thing")] "tasks"
      = some (Json.str "do the thing") ∧
    (Json.str "do the thing").isArr = false ∧
    analyze_message (fun _ => Except.ok (Json.obj [("tasks", Json.str "do the thing")])) ⟨"m"⟩
      = EndpointResult.success ⟨"Informational", "", [], ""⟩ ∧
    (MessageAnalysisResponse.mk "Informational" "" [] "").tasks = [] := by
  refine ⟨rfl, rfl, rfl, ?_⟩
  exact c3_tasks_nonlist_becomes_empty ⟨"m"⟩ [("tasks", Json.str "do the thing")]
    (Json.str "do the thing") ⟨"Informational", "", [], ""⟩ rfl rfl rfl

/-- C4: when the upstream call or the JSON parse of the returned text
fails (for any underlying cause), both endpoints return the generic 500
error with their fixed detail string; the cause never reaches the caller. -/
theorem c4_upstream_failure_generic_500 :
    ∀ (e : String) (reqA : MessageRequest) (reqR : RewriteRequest),
      analyze_message (fun _ => Except.error e) reqA
        = EndpointResult.httpError 500 "Error analyzing message" ∧
      rewrite_reply (fun _ => Except.error e) reqR
        = EndpointResult.httpError 500 "Error rewriting reply" :=
  fun _ _ _ => ⟨rfl, rfl⟩

/-- C5 counterexample: the classification field is present but is a
number, and the request does not return a success body with the safe
default; it fails with the generic 500 error, refuting the claim that a
wrong-typed field degrades to its default rather than failing. -/
theorem c5_wrong_type_counterexample :
    lookupField [("classification", Json.num 5)] "classification" = some (Json.num 5) ∧
    asStr (Json.num 5) = none ∧
    analyze_message (fun _ => Except.ok (Json.obj [("classification", Json.num 5)])) ⟨"m"⟩
      = EndpointResult.httpError 500 "Error analyzing message" :=
  ⟨rfl, rfl, rfl⟩

/-- C5 (amended): every field the handlers read has an explicit default
used when the field is missing; a present tasks value that is not a list
degrades to the empty list in a success output; but classification,
summary, suggested_reply or rewritten_reply present with a non-string
value makes the request fail with the generic 500 error instead of
degrading to a default. -/
theorem c5_defensive_parsing_amended :
    (∀ (req : MessageRequest),
        analyze_message (fun _ => Except.ok (Json.obj [])) req
          = EndpointResult.success ⟨"Informational", "", [], ""⟩) ∧
    (∀ (req : RewriteRequest),
        rewrite_reply (fun _ => Except.ok (Json.obj [])) req
          = EndpointResult.success ⟨req.base_reply⟩) ∧
    (∀ (req : MessageRequest) (fields : List (String × Json)) (t : Json)
        (r : MessageAnalysisResponse),
        lookupField fields "tasks" = some t → t.isArr = false →
        analyze_message (fun _ => Except.ok (Json.obj fields)) req = .success r →
        r.tasks = []) ∧
    (∀ (req : MessageRequest) (fields : List (String × Json)) (v : Json),
        lookupField fields "classification" = some v → asStr v = none →
        analyze_message (fun _ => Except.ok (Json.obj fields)) req
          = .httpError 500 "Error analyzing message") ∧
    (∀ (req : MessageRequest) (fields : List (String × Json)) (v : Json),
        lookupField fields "summary" = some v → asStr v = none →
        analyze_message (fun _ => Except.ok (Json.obj fields)) req
          = .httpError 500 "Error analyzing message") ∧
    (∀ (req : MessageRequest) (fields : List (String × Json)) (v : Json),
        lookupField fields "suggested_reply" = some v → asStr v = none →
        analyze_message (fun _ => Except.ok (Json.obj fields)) req
          = .httpError 500 "Error analyzing message") ∧
    (∀ (req : RewriteRequest) (fields : List (String × Json)) (v : Json),
        lookupField fields "rewritten_reply" = some v → asStr v = none →
        rewrite_reply (fun _ => Except.ok (Json.obj fields)) req
          = .httpError 500 "Error rewriting reply") := by
  refine ⟨?_, ?_, ?_, ?_, ?_, ?_, ?_⟩
  · intro req; rfl
  · intro req
    apply rewrite_reply_ok
    rw [rewriteNormalize_obj]
    simp [dictGetD, lookupField, asStr]
  · intro req fields t r hl ha hsucc
    obtain ⟨-, -, h3, -⟩ := (analyzeNormalize_obj fields r).mp
      (analyze_message_success _ _ _ hsucc)
    simp only [dictGetD, hl, Option.getD_some, ha, if_false, Bool.false_eq_true,
      asStrList, strList, Option.some.injEq] at h3
    exact h3.symm
  · intro req fields v hl hv
    exact analyze_message_err _ _ (analyzeNormalize_none_classification fields v hl hv)
  · intro req fields v hl hv
    exact analyze_message_err _ _ (analyzeNormalize_none_summary fields v hl hv)
  · intro req fields v hl hv
    exact analyze_message_err _ _ (analyzeNormalize_none_suggested fields v hl hv)
  · intro req fields v hl hv
    exact rewrite_reply_err _ _ (rewriteNormalize_none_bad req fields v hl hv)

/-- Witness for the amended C5: a boolean-valued classification field
makes the request fail with the generic error. -/
theorem c5_defensive_parsing_amended_witness :
    lookupField [("classification", Json.bool true)] "classification"
      = some (Json.bool true) ∧
    asStr (Json.bool true) = none ∧
    analyze_message (fun _ => Except.ok (Json.obj [("classification", Json.bool true)])) ⟨"m"⟩
      = EndpointResult.httpError 500 "Error analyzing message" := by
  refine ⟨rfl, rfl, ?_⟩
  exact c5_defensive_parsing_amended.2.2.2.1 ⟨"m"⟩
    [("classification", Json.bool true)] (Json.bool true) rfl rfl

/-- C6: a string-valued classification field is passed through unchanged
to the caller, with no validation against the five enumerated labels. -/
theorem c6_classification_passthrough :
    ∀ (req : MessageRequest) (fields : List (String × Json)) (c : String)
      (r : MessageAnalysisResponse),
      lookupField fields "classification" = some (Json.str c) →
      analyze_message (fun _ => Except.ok (Json.obj fields)) req = .success r →
      r.classification = c := by
  intro req fields c r hl hsucc
  obtain ⟨h1, -, -, -⟩ := (analyzeNormalize_obj fields r).mp
    (analyze_message_success _ _ _ hsucc)
  simp only [dictGetD, hl, Option.getD_some, asStr, Option.some.injEq] at h1
  exact h1.symm

/-- Witness for C6: the out-of-enum value "Banana" is returned unchanged
in a successful response. -/
theorem c6_classification_passthrough_witness :
    lookupField [("classification", Json.str "Banana")] "classification"
      = some (Json.str "Banana") ∧
    analyze_message (fun _ => Except.ok (Json.obj [("classification", Json.str "Banana")])) ⟨"m"⟩
      = EndpointResult.success ⟨"Banana", "", [], ""⟩ ∧
    "Banana" ∉ ["Urgent", "Request", "Follow-Up", "Reminder", "Informational"] ∧
    (MessageAnalysisResponse.mk "Banana" "" [] "").classification = "Banana" := by
  refine ⟨rfl, rfl, by decide, ?_⟩
  exact c6_classification_passthrough ⟨"m"⟩ [("classification", Json.str "Banana")]
    "Banana" ⟨"Banana", "", [], ""⟩ rfl rfl

/-- C7: for every rewrite request, whatever its style string, the handler
performs no style validation: the outbound user turn is exactly the
serialized payload whose style entry is the request's style verbatim. -/
theorem c7_style_forwarded_as_is :
    ∀ (request : RewriteRequest),
      (rewriteCompletionRequest request).messages
        = [ { role := "system", content := REWRITE_SYSTEM_PROMPT }
          , { role := "user", content := Json.dumps (rewritePayload request) } ] ∧
      rewritePayload request
        = Json.obj [ ("original_message", Json.str request.original_message)
                   , ("base_reply", Json.str request.base_reply)
                   , ("style", Json.str request.style) ] ∧
      Json.dumps (rewritePayload request)
        = "\x7b" ++ (dumpString "original_message" ++ ": " ++ dumpString request.original_message
            ++ ", " ++ (dumpString "base_reply" ++ ": " ++ dumpString request.base_reply
            ++ ", " ++ (dumpString "style" ++ ": " ++ dumpString request.style))) ++ "\x7d" := by
  intro request
  refine ⟨rfl, rfl, ?_⟩
  simp [Json.dumps, Json.dumpsFields, rewritePayload]

/-- An environment in which OPENAI_API_KEY is present but empty. -/
def envWithEmptyKey : Env := fun k => if k = "OPENAI_API_KEY" then some "" else none

/-- An environment in which OPENAI_API_KEY is present and non-empty. -/
def envWithKey : Env := fun k => if k = "OPENAI_API_KEY" then some "sk-test" else none

/-- C8 counterexample: the credential is present in the environment (as
the empty string), yet module initialization raises instead of starting,
refuting the claim that presence of the credential suffices for startup. -/
theorem c8_empty_key_counterexample :
    OPENAI_API_KEY envWithEmptyKey = some "" ∧
    startupInit envWithEmptyKey = Except.error "OPENAI_API_KEY is not set in .env" :=
  ⟨rfl, rfl⟩

/-- C8 (amended): if the credential is absent or is the empty string
(both falsy in Python), module initialization raises before any request
can be served; if it is present and non-empty, startup proceeds and the
shared client handle is initialized with that key. -/
theorem c8_credential_fail_fast_amended :
    ∀ (env : Env),
      (OPENAI_API_KEY env = none →
        startupInit env = Except.error "OPENAI_API_KEY is not set in .env") ∧
      (OPENAI_API_KEY env = some "" →
        startupInit env = Except.error "OPENAI_API_KEY is not set in .env") ∧
      (∀ key, OPENAI_API_KEY env = some key → key ≠ "" →
        startupInit env = Except.ok { api_key := key }) := by
  intro env
  refine ⟨?_, ?_, ?_⟩
  · intro h; simp [startupInit, h]
  · intro h; simp [startupInit, h]
  · intro key h hne; simp [startupInit, h, hne]

/-- Witness for the amended C8: with a non-empty credential the process
starts and the client holds that key. -/
theorem c8_credential_fail_fast_amended_witness :
    OPENAI_API_KEY envWithKey = some "sk-test" ∧
    "sk-test" ≠ "" ∧
    startupInit envWithKey = Except.ok { api_key := "sk-test" } := by
  refine ⟨rfl, by decide, ?_⟩
  exact (c8_credential_fail_fast_amended envWithKey).2.2 "sk-test" rfl (by decide)

/-- C9: a present but non-string classification, summary or
suggested_reply, a tasks list containing a non-string element, or a
present but non-string rewritten_reply, all make the endpoint return the
generic 500 error rather than a success body with defaulted fields. -/
theorem c9_wrong_typed_field_500 :
    (∀ (req : MessageRequest) (fields : List (String × Json)) (v : Json),
        lookupField fields "classification" = some v → asStr v = none →
        analyze_message (fun _ => Except.ok (Json.obj fields)) req
          = EndpointResult.httpError 500 "Error analyzing message") ∧
    (∀ (req : MessageRequest) (fields : List (String × Json)) (v : Json),
        lookupField fields "summary" = some v → asStr v = none →
        analyze_message (fun _ => Except.ok (Json.obj fields)) req
          = EndpointResult.httpError 500 "Error analyzing message") ∧
    (∀ (req : MessageRequest) (fields : List (String × Json)) (v : Json),
        lookupField fields "suggested_reply" = some v → asStr v = none →
        analyze_message (fun _ => Except.ok (Json.obj fields)) req
          = EndpointResult.httpError 500 "Error analyzing message") ∧
    (∀ (req : MessageRequest) (fields : List (String × Json)) (xs : List Json) (j : Json),
        lookupField fields "tasks" = some (Json.arr xs) → j ∈ xs → asStr j = none →
        analyze_message (fun _ => Except.ok (Json.obj fields)) req
          = EndpointResult.httpError 500 "Error analyzing message") ∧
    (∀ (req : RewriteRequest) (fields : List (String × Json)) (v : Json),
        lookupField fields "rewritten_reply" = some v → asStr v = none →
        rewrite_reply (fun _ => Except.ok (Json.obj fields)) req
          = EndpointResult.httpError 500 "Error rewriting reply") := by
  refine ⟨?_, ?_, ?_, ?_, ?_⟩
  · intro req fields v hl hv
    exact analyze_message_err _ _ (analyzeNormalize_none_classification fields v hl hv)
  · intro req fields v hl hv
    exact analyze_message_err _ _ (analyzeNormalize_none_summary fields v hl hv)
  · intro req fields v hl hv
    exact analyze_message_err _ _ (analyzeNormalize_none_suggested fields v hl hv)
  · intro req fields xs j hl hj hv
    exact analyze_message_err _ _ (analyzeNormalize_none_tasks_elem fields xs j hl hj hv)
  · intro req fields v hl hv
    exact rewrite_reply_err _ _ (rewriteNormalize_none_bad req fields v hl hv)

/-- Witness for C9: a tasks list holding a number makes analyze_message
fail, and a numeric rewritten_reply makes rewrite_reply fail. -/
theorem c9_wrong_typed_field_500_witness :
    lookupField [("tasks", Json.arr [Json.str "a", Json.num 3])] "tasks"
      = some (Json.arr [Json.str "a", Json.num 3]) ∧
    Json.num 3 ∈ [Json.str "a", Json.num 3] ∧
    asStr (Json.num 3) = none ∧
    analyze_message
        (fun _ => Except.ok (Json.obj [("tasks", Json.arr [Json.str "a", Json.num 3])])) ⟨"m"⟩
      = EndpointResult.httpError 500 "Error analyzing message" ∧
    rewrite_reply (fun _ => Except.ok (Json.obj [("rewritten_reply", Json.null)]))
        ⟨"om", "base", "short"⟩
      = EndpointResult.httpError 500 "Error rewriting reply" := by
  refine ⟨rfl, List.Mem.tail _ (List.Mem.head _), rfl, ?_, ?_⟩
  · exact c9_wrong_typed_field_500.2.2.2.1 ⟨"m"⟩
      [("tasks", Json.arr [Json.str "a", Json.num 3])] [Json.str "a", Json.num 3]
      (Json.num 3) rfl (List.Mem.tail _ (List.Mem.head _)) rfl
  · exact c9_wrong_typed_field_500.2.2.2.2 ⟨"om", "base", "short"⟩
      [("rewritten_reply", Json.null)] Json.null rfl rfl

/-- C10: the response-normalization stage of rewrite_reply is
deterministic and depends on the request only through base_reply: two
requests sharing a base_reply, run against one fixed upstream response,
produce identical endpoint results, whatever their style and
original_message. -/
theorem c10_rewrite_depends_only_on_base_reply :
    ∀ (r1 r2 : RewriteRequest) (u : Except String Json),
      r1.base_reply = r2.base_reply →
      rewrite_reply (fun _ => u) r1 = rewrite_reply (fun _ => u) r2 := by
  intro r1 r2 u h
  cases u with
  | error e => rfl
  | ok data => cases data <;> simp [rewrite_reply, rewriteNormalize, dictGetD, h]

/-- Witness for C10: two requests with different style and
original_message but the same base_reply give the same result on a fixed
upstream response. -/
theorem c10_rewrite_depends_only_on_base_reply_witness :
    (RewriteRequest.mk "m1" "base" "short").base_reply
      = (RewriteRequest.mk "m2" "base" "friendly").base_reply ∧
    rewrite_reply (fun _ => Except.ok (Json.obj [("rewritten_reply", Json.str "done")]))
        ⟨"m1", "base", "short"⟩
      = rewrite_reply (fun _ => Except.ok (Json.obj [("rewritten_reply", Json.str "done")]))
        ⟨"m2", "base", "friendly"⟩ :=
  ⟨rfl, c10_rewrite_depends_only_on_base_reply ⟨"m1", "base", "short"⟩
    ⟨"m2", "base", "friendly"⟩ (Except.ok (Json.obj [("rewritten_reply", Json.str "done")])) rfl⟩

end InboxAgent
